import Mathlib

/-!
Verification development for the `optimize events` / `optimize recommendations`
command core (src/cmd/optimize/events.go): query setup with entity resolution,
result extraction, pagination, the follow loop, and the blocker join.

Go `any` cell values are embedded as the inductive `Value`; `*uql.DataSet` as
`Option DataSet` (nil = none); Go runtime panics (from unchecked type
assertions / out-of-range indexing) are a distinct outcome `GoResult.panic`,
kept separate from returned errors `GoResult.err`.
-/

set_option autoImplicit false

namespace FsocOptimize

/-- Outcome of a Go computation: a normal value, a returned `error`, or a
runtime panic (failed unchecked type assertion or index out of range). -/
inductive GoResult (α : Type) where
  | ok (a : α)
  | err (msg : String)
  | panic
  deriving DecidableEq

/-- Embedding of the dynamic (`any`) cell values appearing in `uql` result
tables: strings, timestamps (`time.Time`, as an abstract instant), nested
attribute bags (`uql.ComplexData`, a list of key/value pairs), nested
datasets (`*uql.DataSet`, fields inlined), and anything else. -/
inductive Value where
  | vstr (s : String)
  | vtime (t : Nat)
  | vcomplex (kvs : List (String × Value))
  | vds (name : String) (rows : List (List Value)) (links : List String)
  | vother

/-- Embeds `uql.DataSet`: a name, a row table, and the names of the continuation
links present (`Links` keys; only membership is ever tested). -/
structure DataSet where
  name : String
  data : List (List Value)
  links : List String

/-- The checked type assertion `v.(*uql.DataSet)` (`, ok` form). -/
def Value.asDataSet : Value → Option DataSet
  | .vds n d l => some ⟨n, d, l⟩
  | _ => none

def DataSet.toValue (d : DataSet) : Value := .vds d.name d.data d.links

/-- A `uql` response: `HasErrors()` (only logged, never fatal) and `Main()`
(nil = none). -/
structure Response where
  hasErrors : Bool
  main : Option DataSet

/- ## String helpers (embedding `strings.Contains` / `Split` / `Join` /
`HasPrefix`; defined by structural recursion on the character lists so that
every concrete evaluation reduces in the kernel) -/

def listIsPrefix : List Char → List Char → Bool
  | [], _ => true
  | _ :: _, [] => false
  | a :: as, b :: bs => a = b && listIsPrefix as bs

def strContainsAux (sub : List Char) : List Char → Bool
  | [] => listIsPrefix sub []
  | c :: rest => listIsPrefix sub (c :: rest) || strContainsAux sub rest

/-- Embeds `strings.Contains s sub`. -/
def strContains (s sub : String) : Bool := strContainsAux sub.data s.data

/-- Embeds `strings.HasPrefix s pre`. -/
def strHasPrefix (s pre : String) : Bool := listIsPrefix pre.data s.data

def splitDotAux : List Char → List Char → List String
  | [], acc => [String.mk acc.reverse]
  | c :: rest, acc =>
    if c = '.' then String.mk acc.reverse :: splitDotAux rest []
    else splitDotAux rest (c :: acc)

/-- Embeds `strings.Split s "."` (the only separator the source splits on). -/
def splitDot (s : String) : List String := splitDotAux s.data []

/-- Embeds `strings.Join parts ","`. -/
def joinComma : List String → String
  | [] => ""
  | [s] => s
  | s :: rest => s ++ "," ++ joinComma rest

/-- Embeds `strings.Join parts sep` (general separator). -/
def joinSep (sep : String) : List String → String
  | [] => ""
  | [s] => s
  | s :: rest => s ++ sep ++ joinSep sep rest

/- ## Attribute maps (Go `map[string]any` and friends as association lists;
map iteration order, which Go leaves unspecified, is modelled as the list
order of the embedding's inputs) -/

/-- Map lookup `m[k]` (`, ok` form; a plain lookup of a missing key yields
the nil interface, modelled by `none`). -/
def mapLookup {α : Type} : List (String × α) → String → Option α
  | [], _ => none
  | (k', v) :: rest, k => if k' = k then some v else mapLookup rest k

/-- Map insert `m[k] = v`: overwrite the existing entry for `k`, else append. -/
def mapInsert {α : Type} : List (String × α) → String → α → List (String × α)
  | [], k, v => [(k, v)]
  | (k', v') :: rest, k, v =>
    if k' = k then (k, v) :: rest else (k', v') :: mapInsert rest k v

/-- Modelled from the spec: the repository's `sliceToMap` helper (called at
events.go:687/711 but defined outside src/) flattens a nested attribute
bag - a list of key/value pairs - into a mapping, with later duplicate keys
overwriting earlier ones and source order otherwise kept (spec section 4.5).
Its second (error) return value is discarded by every caller in src/. -/
def sliceToMap (kvs : List (String × Value)) : List (String × Value) :=
  kvs.foldl (fun m kv => mapInsert m kv.1 kv.2) []

/- ## Result Extractor (events.go:702-717, `extractEventsData`) -/

/-- Embeds `EventsRow`: timestamp plus flattened attribute map. -/
structure EventsRow where
  timestamp : Nat
  eventAttributes : List (String × Value)

/-- Body of the `extractEventsData` row loop: `row[0].(uql.ComplexData)`,
`row[1].(time.Time)` - both unchecked assertions, and `row[0]`/`row[1]`
unchecked indexing, so any shape deviation is a panic. -/
def extractRow (row : List Value) : GoResult EventsRow :=
  match row with
  | Value.vcomplex kvs :: Value.vtime t :: _ => .ok ⟨t, sliceToMap kvs⟩
  | _ => .panic

def extractRows : List (List Value) → GoResult (List EventsRow)
  | [] => .ok []
  | row :: rest =>
    match extractRow row with
    | .ok e =>
      match extractRows rest with
      | .ok es => .ok (e :: es)
      | .err m => .err m
      | .panic => .panic
    | .err m => .err m
    | .panic => .panic

/-- Embeds `extractEventsData` (events.go:702-717): nil dataset yields the empty
row list; otherwise each row is converted in order. The function's `error`
return is never non-nil in the source; shape violations panic instead. -/
def extractEventsData : Option DataSet → GoResult (List EventsRow)
  | none => .ok []
  | some ds => extractRows ds.data

/-- Well-shaped row tables built from attribute-bag/timestamp pairs. -/
def mkWellRows (spec : List (List (String × Value) × Nat)) : List (List Value) :=
  spec.map (fun p => [Value.vcomplex p.1, Value.vtime p.2])

def mkEvents (spec : List (List (String × Value) × Nat)) : List EventsRow :=
  spec.map (fun p => ⟨p.2, sliceToMap p.1⟩)

theorem extractRows_mkWellRows (spec : List (List (String × Value) × Nat)) :
    extractRows (mkWellRows spec) = .ok (mkEvents spec) := by
  induction spec with
  | nil => rfl
  | cons p rest ih => simp [mkWellRows, mkEvents, extractRows, extractRow] at ih ⊢; simp [ih]

/- ## Blocker Joiner (events.go:580-700) -/

/-- Embeds `recommendationRow` (events.go:76-81). -/
structure RecommendationRow where
  eventsRow : EventsRow
  blockersAttributes : List (String × Value)
  blockersPresent : String
  blockers : List String

/-- The composite lookup key (events.go:590-592 and 695):
`fmt.Sprintf("%s-%s", m["optimize.optimization.optimizer_id"].(string),
m["optimize.optimization.num"].(string))` - both assertions unchecked, so a
missing or non-string attribute is a panic. -/
def uniqueKeyOf (attrs : List (String × Value)) : GoResult String :=
  match mapLookup attrs "optimize.optimization.optimizer_id",
        mapLookup attrs "optimize.optimization.num" with
  | some (Value.vstr a), some (Value.vstr b) => .ok (a ++ "-" ++ b)
  | _, _ => .panic

/-- Blocker-id accumulation step, the body of the loop at events.go:608-616:
skip names containing `"principal"`; for names with more than three
dot-segments take the second-to-last segment, and append it unless it already
occurs as a substring of the comma-joined accumulated list. -/
def blockerStep (blockers : List String) (attr : String) : List String :=
  if strContains attr "principal" then blockers
  else
    let splitAttr := splitDot attr
    if splitAttr.length > 3 then
      let blockerID := splitAttr.getD (splitAttr.length - 2) ""
      if strContains (joinComma blockers) blockerID then blockers
      else blockers ++ [blockerID]
    else blockers

/-- The matched-row merge loop (events.go:604-617): copy every attribute of
the started-event row into the blocker-attribute map and accumulate blocker
ids. Iteration order of the Go map is unspecified; it is modelled as the
association-list order of the embedded row. -/
def processStartedAttrs :
    List (String × Value) → List (String × Value) → List String →
    List (String × Value) × List String
  | [], battrs, blockers => (battrs, blockers)
  | (attr, v) :: rest, battrs, blockers =>
    processStartedAttrs rest (mapInsert battrs attr v) (blockerStep blockers attr)

/-- Embeds `BlockerLookup`: composite key to retained started-event attributes. -/
def BlockerRows : Type := List (String × List (String × Value))

/-- One pass of the per-recommendation loop body (events.go:589-624):
derive the composite key, look it up in the blocker data; on a miss log a
warning and keep empty blocker data, on a match merge attributes and ids;
`BlockersPresent` is `"true"` exactly when the id list ended non-empty. -/
def mergeRow (blockerRows : BlockerRows) (row : EventsRow) :
    GoResult RecommendationRow :=
  match uniqueKeyOf row.eventAttributes with
  | .ok uniqueKey =>
    match mapLookup blockerRows uniqueKey with
    | none => .ok ⟨row, [], "false", []⟩
    | some startedRow =>
      let p := processStartedAttrs startedRow [] []
      .ok ⟨row, p.1, if p.2.length > 0 then "true" else "false", p.2⟩
  | .err m => .err m
  | .panic => .panic

def mergeRows (blockerRows : BlockerRows) : List EventsRow → GoResult (List RecommendationRow)
  | [] => .ok []
  | r :: rest =>
    match mergeRow blockerRows r with
    | .ok x =>
      match mergeRows blockerRows rest with
      | .ok xs => .ok (x :: xs)
      | .err m => .err m
      | .panic => .panic
    | .err m => .err m
    | .panic => .panic

/-- Row loop of `extractStartedBlockersData` (events.go:684-697):
`row[0].(uql.ComplexData)` unchecked, keep only attributes prefixed
`optimize.ignored_blockers`, key the retained map by the composite key
(unchecked string assertions again). -/
def extractStartedRow (results : BlockerRows) (row : List Value) : GoResult BlockerRows :=
  match row with
  | Value.vcomplex kvs :: _ =>
    let attributesMap := sliceToMap kvs
    let newAttributes :=
      attributesMap.filter (fun kv => strHasPrefix kv.1 "optimize.ignored_blockers")
    match uniqueKeyOf attributesMap with
    | .ok uniqueKey => .ok (mapInsert results uniqueKey newAttributes)
    | .err m => .err m
    | .panic => .panic
  | _ => .panic

def extractStartedRows (results : BlockerRows) : List (List Value) → GoResult BlockerRows
  | [] => .ok results
  | row :: rest =>
    match extractStartedRow results row with
    | .ok results2 => extractStartedRows results2 rest
    | .err m => .err m
    | .panic => .panic

/-- Embeds `extractStartedBlockersData` (events.go:676-700). -/
def extractStartedBlockersData : Option DataSet → GoResult BlockerRows
  | none => .ok []
  | some ds => extractStartedRows [] ds.data

/-- Embeds `getOptimizationBlockerData` (events.go:636-674), from the point where
the optimization_started query's response is in hand: a nil main dataset or
an empty row list is the fatal error `no optimization_started results found
for given input`; then the usual first-row/first-column/dataset-conversion
shape checks, then blocker extraction. -/
def getOptimizationBlockerData (resp : Response) : GoResult BlockerRows :=
  match resp.main with
  | none => .err "no optimization_started results found for given input"
  | some mds =>
    match mds.data with
    | [] => .err "no optimization_started results found for given input"
    | row :: _ =>
      match row with
      | [] => .err ("main dataset " ++ mds.name ++ " first row has no columns")
      | c :: _ =>
        match c.asDataSet with
        | none => .err ("main dataset " ++ mds.name ++
            " first row first column could not be converted to *uql.DataSet")
        | some ds => extractStartedBlockersData (some ds)

/-- The tail of `listRecommendations` (events.go:580-625): with the
recommendation rows already extracted, fetch and join the blocker data; a
failure of the blocker query aborts the whole operation. -/
def recommendationsJoinPhase (recRows : List EventsRow) (blockerResp : Response) :
    GoResult (List RecommendationRow) :=
  match getOptimizationBlockerData blockerResp with
  | .err m => .err ("failed to retrieve optimization_started blocker data: " ++ m)
  | .panic => .panic
  | .ok blockerRows => mergeRows blockerRows recRows

/- ## Query setup: filters, entity resolution, result-cap validation
(events.go:154-202 for `listEvents`; the identical block at
events.go:462-503 for `listRecommendations`) -/

/-- The filter-relevant fields of `eventsFlags` (events.go:52-63), shared by
both commands; `count` keeps Go's `int` with `-1` meaning "no cap". -/
structure EventsFlags where
  clusterId : String
  namespace_ : String
  workloadName : String
  optimizerId : String
  count : Int
  follow : Bool

/-- Quoting in the style of `%q` (escaping is irrelevant for the identifiers at hand). -/
def goQuote (s : String) : String := "\"" ++ s ++ "\""

/-- How far query setup got before the first main-query network call. -/
inductive SetupOutcome where
  | statusNoEntities
  | resolverFailed (msg : String)
  | capError
  | proceed (filter : String) (limits : Option Int)
  deriving DecidableEq

/-- Whether setup reached the point of issuing the main query. -/
def SetupOutcome.mainQueryIssued : SetupOutcome → Bool
  | .proceed _ _ => true
  | _ => false

structure SetupResult where
  outcome : SetupOutcome
  resolverCalled : Bool
  deriving DecidableEq

/-- Result-cap validation and limit assembly (events.go:191-196 and 492-497),
applied after the filter clauses are in hand. -/
def afterFilter (flags : EventsFlags) (filterList : List String)
    (resolverCalled : Bool) : SetupResult :=
  if flags.count ≠ -1 then
    if flags.count > 1000 then ⟨.capError, resolverCalled⟩
    else ⟨.proceed (joinSep " && " filterList) (some flags.count), resolverCalled⟩
  else ⟨.proceed (joinSep " && " filterList) none, resolverCalled⟩

/-- Query setup of `listEvents` (events.go:171-196) and, identically, of
`listRecommendations` (events.go:472-497): build the filter clauses - the
namespace/workload path first calls the Entity Resolver (`listOptimizations`,
one network lookup, abstracted as `resolver`), short-circuiting on its error
or on an empty id list - and only then validate the result cap. -/
def listEventsSetup (flags : EventsFlags)
    (resolver : Except String (List String)) : SetupResult :=
  let filterList : List String :=
    if flags.clusterId ≠ "" then
      ["attributes(k8s.cluster.id) = " ++ goQuote flags.clusterId]
    else []
  if flags.optimizerId ≠ "" then
    afterFilter flags
      (filterList ++ ["attributes(optimize.optimization.optimizer_id) = " ++
        goQuote flags.optimizerId]) false
  else if flags.namespace_ ≠ "" ∨ flags.workloadName ≠ "" then
    match resolver with
    | .error e => ⟨.resolverFailed ("listOptimizations: " ++ e), true⟩
    | .ok [] => ⟨.statusNoEntities, true⟩
    | .ok ids =>
      afterFilter flags
        (filterList ++ ["attributes(optimize.optimization.optimizer_id) IN [\"" ++
          joinSep "\", \"" ids ++ "\"]"]) true
  else afterFilter flags filterList false

/- ## Paginator (events.go:235-281 and 536-578) -/

/-- What one `ContinueQuery` round trip can yield. -/
inductive PollResponse where
  | transportErr (msg : String)
  | resp (r : Response)

/-- Embeds the `"next"`-link loop (events.go:248-281): while the current dataset
carries a `"next"` link, issue one continuation (consuming the next entry of
the environment `pages`), re-check the response shape, extract, and append.
A nil main dataset breaks the loop non-fatally (logged only). The second
component counts continuation round trips actually issued. -/
def runPagination : DataSet → List PollResponse → GoResult (List EventsRow) × Nat
  | ds, pages =>
    if ds.links.contains "next" then
      match pages with
      | [] => (.err "uql.ClientV1.ContinueQuery: no response", 1)
      | PollResponse.transportErr e :: _ => (.err ("uql.ClientV1.ContinueQuery: " ++ e), 1)
      | PollResponse.resp r :: rest =>
        match r.main with
        | none => (.ok [], 1)
        | some mds =>
          match mds.data with
          | [] => (.err ("main dataset " ++ mds.name ++ " has no rows"), 1)
          | row :: _ =>
            match row with
            | [] => (.err ("main dataset " ++ mds.name ++ " first row has no columns"), 1)
            | c :: _ =>
              match c.asDataSet with
              | none => (.err ("main dataset " ++ mds.name ++
                  " first row first column could not be converted to *uql.DataSet"), 1)
              | some ds2 =>
                match extractEventsData (some ds2) with
                | .ok newRows =>
                  match runPagination ds2 rest with
                  | (.ok more, n) => (.ok (newRows ++ more), n + 1)
                  | (e, n) => (e, n + 1)
                | .err m => (.err m, 1)
                | .panic => (.panic, 1)
    else (.ok [], 0)
  termination_by _ pages => pages.length

/-- Extraction plus pagination for the first page (events.go:229-281): the
initial `next_ok` from the page's links is forced to `false` when a result
cap is set (`count != -1`), and - on the events path only, signalled by
`followApplies` - when follow mode is on. `listRecommendations` has no
follow override (events.go:536-544). The `Nat` counts continuation calls. -/
def collectEventRows (flags : EventsFlags) (followApplies : Bool)
    (ds : DataSet) (pages : List PollResponse) : GoResult (List EventsRow) × Nat :=
  match extractEventsData (some ds) with
  | .ok rows =>
    if flags.count ≠ -1 then (.ok rows, 0)
    else if followApplies && flags.follow then (.ok rows, 0)
    else
      match runPagination ds pages with
      | (.ok more, n) => (.ok (rows ++ more), n)
      | (e, n) => (e, n)
  | .err m => (.err m, 0)
  | .panic => (.panic, 0)

/- ## Follower (events.go:289-374) -/

/-- Embeds `followEventResult` (events.go:323-327), extended with the rows the poll
printed so the output boundary is visible to the theorems. -/
structure FollowResult where
  data_set : Option DataSet
  err : Option String
  cursorExhausted : Bool
  printed : List EventsRow

/-- Embeds `followDatasetAndPrint` (events.go:329-374): one `"follow"` poll. A
transport failure or a shape violation (no rows, no columns, first cell not
a dataset) comes back as a result carrying `err`; a nil main dataset is only
logged and the PREVIOUS cursor is returned with no error; otherwise the new
rows are extracted (a cell-shape violation panics inside the extractor),
non-empty batches are printed immediately, and an empty batch marks the
cursor exhausted. -/
def followDatasetAndPrint (ds : DataSet) (pr : PollResponse) : GoResult FollowResult :=
  match pr with
  | .transportErr e =>
    .ok ⟨none, some ("follow uql.ClientV1.ContinueQuery: " ++ e), false, []⟩
  | .resp r =>
    match r.main with
    | none => .ok ⟨some ds, none, false, []⟩
    | some mds =>
      match mds.data with
      | [] => .ok ⟨none, some ("follow main dataset " ++ mds.name ++ " has no rows"), false, []⟩
      | row :: _ =>
        match row with
        | [] => .ok ⟨none, some ("follow main dataset " ++ mds.name ++
            " first row has no columns"), false, []⟩
        | c :: _ =>
          match c.asDataSet with
          | none => .ok ⟨none, some ("follow main dataset " ++ mds.name ++
              " first row first column could not be converted to *uql.DataSet"), false, []⟩
          | some ds2 =>
            match extractEventsData (some ds2) with
            | .ok newRows =>
              if newRows.length > 0 then .ok ⟨some ds2, none, false, newRows⟩
              else .ok ⟨some ds2, none, true, []⟩
            | .err m => .ok ⟨some ds2, some ("follow extractEventsData: " ++ m), false, []⟩
            | .panic => .panic

/-- An event the follow loop's `select` can observe (events.go:296-316):
an interrupt signal, or a completed poll result from the channel. -/
inductive LoopEvent where
  | interrupt
  | result (r : FollowResult)

/-- What the loop does with one observed event. -/
inductive LoopStep where
  | terminateOk
  | terminateErr (msg : String)
  | dispatch (sleepFirst : Bool) (ds : Option DataSet)

/-- One iteration of the follow loop's `select` (events.go:296-316): an
interrupt returns nil immediately; a result with an error returns that
error; otherwise the next poll is scheduled, sleeping the follow interval
first exactly when the previous poll found the cursor exhausted. -/
def followLoopStep : LoopEvent → LoopStep
  | .interrupt => .terminateOk
  | .result r =>
    match r.err with
    | some e => .terminateErr e
    | none => .dispatch r.cursorExhausted r.data_set

/-- Running the loop over a sequence of observed events: the first component
is the termination status (`none` = still looping when the event trace ends,
`some none` = returned nil, `some (some e)` = returned the error `e`); the
second counts the polls dispatched after the trace's first event. -/
def followLoop : List LoopEvent → Option (Option String) × Nat
  | [] => (none, 0)
  | e :: rest =>
    match followLoopStep e with
    | .terminateOk => (some none, 0)
    | .terminateErr m => (some (some m), 0)
    | .dispatch _ _ =>
      match followLoop rest with
      | (t, n) => (t, n + 1)

/- ## Amended-claim reference definitions for the blocker-id pass
(spec section 4.6 step 5, with the deduplication rule corrected) -/

/-- Follows the amended claim's words: the blocker id contributed by one
attribute name - `none` for names containing `"principal"` or with at most
three dot-delimited segments, otherwise the second-to-last segment. -/
def amendedBlockerId (attr : String) : Option String :=
  let segs := splitDot attr
  if strContains attr "principal" then none
  else if segs.length ≤ 3 then none
  else segs.get? (segs.length - 2)

/-- Follows the amended claim's words: add a contributed blocker id unless it
already occurs as a substring of the comma-joined accumulated list. -/
def amendedStep (acc : List String) (attr : String) : List String :=
  match amendedBlockerId attr with
  | none => acc
  | some bid => if strContains (joinComma acc) bid then acc else acc ++ [bid]

/-- Follows the amended claim's words: the blocker-id list collected over the
attribute names in iteration order, starting empty. -/
def amendedBlockers (names : List String) : List String :=
  names.foldl amendedStep []

/-- Follows the claim's words: every lookup attribute copied into the
blocker-attribute mapping, in iteration order. -/
def amendedAttrs (attrs : List (String × Value)) : List (String × Value) :=
  attrs.foldl (fun m kv => mapInsert m kv.1 kv.2) []

theorem blockerStep_eq_amendedStep (blockers : List String) (attr : String) :
    blockerStep blockers attr = amendedStep blockers attr := by
  unfold blockerStep amendedStep amendedBlockerId
  by_cases h1 : strContains attr "principal" = true
  · simp [h1]
  · simp only [Bool.not_eq_true] at h1
    simp only [h1, Bool.false_eq_true, if_false]
    by_cases h2 : (splitDot attr).length > 3
    · have hlt : (splitDot attr).length - 2 < (splitDot attr).length := by omega
      have hle : ¬ (splitDot attr).length ≤ 3 := by omega
      have hg : (splitDot attr)[(splitDot attr).length - 2]? =
          some ((splitDot attr).getD ((splitDot attr).length - 2) "") := by
        rw [List.getD_eq_getElem?_getD, List.getElem?_eq_getElem hlt]
        rfl
      simp only [gt_iff_lt, h2, if_true, hle, if_false, List.get?_eq_getElem?, hg]
    · have hle : (splitDot attr).length ≤ 3 := by omega
      simp [h2, hle]

theorem processStartedAttrs_eq (attrs : List (String × Value))
    (battrs : List (String × Value)) (blockers : List String) :
    processStartedAttrs attrs battrs blockers =
      (attrs.foldl (fun m kv => mapInsert m kv.1 kv.2) battrs,
       attrs.foldl (fun acc kv => amendedStep acc kv.1) blockers) := by
  induction attrs generalizing battrs blockers with
  | nil => rfl
  | cons kv rest ih =>
    simp [processStartedAttrs, blockerStep_eq_amendedStep, ih]

theorem foldl_amendedStep_map (attrs : List (String × Value)) :
    attrs.foldl (fun acc kv => amendedStep acc kv.1) [] =
      amendedBlockers (attrs.map Prod.fst) := by
  rw [amendedBlockers, List.foldl_map]

/- ## Claim theorems -/

/-- C2, counterexample: with a matched lookup row carrying the attributes
`optimize.ignored_blockers.cpu-limit.reason` then
`optimize.ignored_blockers.cpu.reason`, the code yields blocker ids
`["cpu-limit"]` only. The claim's exact-string-match deduplication would
admit `"cpu"` (it is not literally present), yet the code suppresses it
because `"cpu"` occurs as a substring of the comma-joined list
`"cpu-limit"`. -/
theorem claim2_counterexample :
    (match mergeRow [("ns-wl-abc-3",
        [("optimize.ignored_blockers.cpu-limit.reason", Value.vstr "r1"),
         ("optimize.ignored_blockers.cpu.reason", Value.vstr "r2")])]
        ⟨0, [("optimize.optimization.optimizer_id", Value.vstr "ns-wl-abc"),
             ("optimize.optimization.num", Value.vstr "3")]⟩ with
      | GoResult.ok r => r.blockers
      | _ => ["FAIL"]) = ["cpu-limit"] ∧
    "cpu" ∉ ["cpu-limit"] := by
  exact ⟨rfl, by decide⟩

/-- C2, amended: for every matched recommendation row, all lookup attributes
are copied into the blocker-attribute mapping; for every attribute name not
containing `"principal"` and having more than three dot-delimited segments,
the second-to-last segment is added to the blocker-id list unless it already
occurs as a substring of the comma-joined accumulated list (substring
deduplication, insertion order preserved); `blockersPresent` is `"true"` iff
the blocker-id list is non-empty after the pass. -/
theorem claim2_blocker_join_amended (blockerRows : BlockerRows) (row : EventsRow)
    (key : String) (startedRow : List (String × Value))
    (hk : uniqueKeyOf row.eventAttributes = GoResult.ok key)
    (hm : mapLookup blockerRows key = some startedRow) :
    ∃ r, mergeRow blockerRows row = GoResult.ok r ∧
      r.blockersAttributes = amendedAttrs startedRow ∧
      r.blockers = amendedBlockers (startedRow.map Prod.fst) ∧
      (r.blockersPresent = "true" ↔ r.blockers ≠ []) := by
  refine ⟨⟨row, amendedAttrs startedRow, ?_, amendedBlockers (startedRow.map Prod.fst)⟩,
    ?_, rfl, rfl, ?_⟩
  · exact if (amendedBlockers (startedRow.map Prod.fst)).length > 0 then "true" else "false"
  · simp only [mergeRow, hk, hm, processStartedAttrs_eq, foldl_amendedStep_map]
    rfl
  · constructor
    · intro h
      by_contra hne
      simp only [ne_eq, not_not] at hne
      simp [hne] at h
    · intro h
      cases hb : amendedBlockers (startedRow.map Prod.fst) with
      | nil => exact absurd hb h
      | cons x xs => simp [hb]

/-- C2, witness for the amended theorem at a concrete matched row. -/
theorem claim2_blocker_join_amended_witness :
    uniqueKeyOf [("optimize.optimization.optimizer_id", Value.vstr "a"),
        ("optimize.optimization.num", Value.vstr "1")] = GoResult.ok "a-1" ∧
    mapLookup [("a-1", [("optimize.ignored_blockers.mem.reason", Value.vstr "m")])] "a-1" =
      some [("optimize.ignored_blockers.mem.reason", Value.vstr "m")] ∧
    (∃ r, mergeRow [("a-1", [("optimize.ignored_blockers.mem.reason", Value.vstr "m")])]
        ⟨0, [("optimize.optimization.optimizer_id", Value.vstr "a"),
             ("optimize.optimization.num", Value.vstr "1")]⟩ = GoResult.ok r ∧
      r.blockersAttributes = amendedAttrs [("optimize.ignored_blockers.mem.reason", Value.vstr "m")] ∧
      r.blockers = amendedBlockers ["optimize.ignored_blockers.mem.reason"] ∧
      (r.blockersPresent = "true" ↔ r.blockers ≠ [])) :=
  ⟨rfl, rfl, claim2_blocker_join_amended _ _ "a-1" _ rfl rfl⟩

/-- C3: the composite lookup key is the optimizer-id attribute, a hyphen,
and the num attribute (`"ns-wl-abc"`/`"3"` gives `"ns-wl-abc-3"`); but when
either attribute is absent or not a string the code PANICS on the unchecked
type assertions at events.go:592 instead of returning a `DataShapeError`,
as does the whole per-row merge. -/
theorem claim3_key_derivation_and_panic :
    uniqueKeyOf [("optimize.optimization.optimizer_id", Value.vstr "ns-wl-abc"),
        ("optimize.optimization.num", Value.vstr "3")] = GoResult.ok "ns-wl-abc-3" ∧
    uniqueKeyOf [("optimize.optimization.optimizer_id", Value.vstr "ns-wl-abc")] =
      GoResult.panic ∧
    uniqueKeyOf [("optimize.optimization.optimizer_id", Value.vstr "ns-wl-abc"),
        ("optimize.optimization.num", Value.vtime 3)] = GoResult.panic ∧
    mergeRow [] ⟨0, [("optimize.optimization.optimizer_id", Value.vstr "ns-wl-abc")]⟩ =
      GoResult.panic := by
  exact ⟨rfl, rfl, rfl, rfl⟩

/-- C4: the extractor maps well-shaped rows one-to-one in order and an empty
table is a valid empty result; but a deviating row (wrong cell type in
column 0, or a single-column row) makes the code PANIC on the unchecked
assertions and indexing at events.go:710-712 instead of returning a
`DataShapeError`. -/
theorem claim4_extractor_panics_on_bad_shape :
    extractEventsData (some ⟨"d", [[Value.vstr "x", Value.vtime 1]], []⟩) = GoResult.panic ∧
    extractEventsData (some ⟨"d", [[Value.vcomplex [("k", Value.vstr "v")]]], []⟩) =
      GoResult.panic ∧
    extractEventsData (some ⟨"d", [], []⟩) = GoResult.ok [] ∧
    extractEventsData
        (some ⟨"d", [[Value.vcomplex [("k", Value.vstr "v")], Value.vtime 5]], []⟩) =
      GoResult.ok [⟨5, [("k", Value.vstr "v")]⟩] := by
  exact ⟨rfl, rfl, rfl, rfl⟩

/-- C10: a blocker (optimization_started) query whose response has a nil
main dataset or zero data rows makes the whole recommendations operation
fail with the fatal `no optimization_started results found` error, for every
already-retrieved recommendation row list - a global blocker-query miss is
not a soft per-row join miss. -/
theorem claim10_blocker_query_miss_fatal (recRows : List EventsRow) (hasErrs : Bool)
    (name : String) (links : List String) :
    recommendationsJoinPhase recRows ⟨hasErrs, none⟩ =
      GoResult.err "failed to retrieve optimization_started blocker data: no optimization_started results found for given input" ∧
    recommendationsJoinPhase recRows ⟨hasErrs, some ⟨name, [], links⟩⟩ =
      GoResult.err "failed to retrieve optimization_started blocker data: no optimization_started results found for given input" := by
  exact ⟨rfl, rfl⟩

/-- C1, counterexample: with namespace filtering and a result cap of 2000,
the run does end in the cap error, but the entity-resolver lookup has
already been issued (`resolverCalled = true`) - refuting the claim that no
network call, including the entity-resolver lookup, precedes the failure. -/
theorem claim1_counterexample :
    listEventsSetup ⟨"", "payments", "", "", 2000, false⟩
        (Except.ok ["payments-api-111"]) =
      ⟨SetupOutcome.capError, true⟩ := by
  decide

/-- C1, amended: for every FilterCriteria with a result cap above 1000 the
main query is never issued; when no entity-resolver lookup happened the run
fails with the InvalidArgument cap error, but on the namespace/workload path
the resolver lookup runs before cap validation and may pre-empt it (resolver
error, or zero matching entities). -/
theorem claim1_cap_blocks_main_query (flags : EventsFlags)
    (resolver : Except String (List String)) (h : flags.count > 1000) :
    (listEventsSetup flags resolver).outcome.mainQueryIssued = false ∧
    ((listEventsSetup flags resolver).resolverCalled = false →
      (listEventsSetup flags resolver).outcome = SetupOutcome.capError) := by
  have hne : flags.count ≠ -1 := by omega
  unfold listEventsSetup afterFilter
  by_cases h1 : flags.optimizerId ≠ ""
  · simp [h1, hne, h, SetupOutcome.mainQueryIssued]
  · by_cases h2 : flags.namespace_ ≠ "" ∨ flags.workloadName ≠ ""
    · cases resolver with
      | error e => simp [h1, h2, SetupOutcome.mainQueryIssued]
      | ok ids =>
        cases ids with
        | nil => simp [h1, h2, SetupOutcome.mainQueryIssued]
        | cons i rest => simp [h1, h2, hne, h, SetupOutcome.mainQueryIssued]
    · simp [h1, h2, hne, h, SetupOutcome.mainQueryIssued]

/-- C1, witness for the amended theorem: an explicit optimizer id and a cap
of 2000 reach the cap error with no resolver call and no main query. -/
theorem claim1_cap_blocks_main_query_witness :
    (EventsFlags.count ⟨"", "", "", "opt-1", 2000, false⟩ > 1000) ∧
    ((listEventsSetup ⟨"", "", "", "opt-1", 2000, false⟩ (Except.ok [])).outcome.mainQueryIssued = false ∧
     ((listEventsSetup ⟨"", "", "", "opt-1", 2000, false⟩ (Except.ok [])).resolverCalled = false →
       (listEventsSetup ⟨"", "", "", "opt-1", 2000, false⟩ (Except.ok [])).outcome =
         SetupOutcome.capError)) :=
  ⟨by decide, claim1_cap_blocks_main_query ⟨"", "", "", "opt-1", 2000, false⟩
    (Except.ok []) (by decide)⟩

/-- C9: when the Entity Resolver returns an empty optimizer-id sequence (on
the namespace/workload path), setup ends with the `No optimization entities
found` status and a nil (success) return: no error, and the main query is
never issued. The same block appears verbatim in `listRecommendations`. -/
theorem claim9_empty_resolver_short_circuit (flags : EventsFlags)
    (h1 : flags.optimizerId = "")
    (h2 : flags.namespace_ ≠ "" ∨ flags.workloadName ≠ "") :
    listEventsSetup flags (Except.ok []) = ⟨SetupOutcome.statusNoEntities, true⟩ ∧
    SetupOutcome.mainQueryIssued SetupOutcome.statusNoEntities = false := by
  refine ⟨?_, rfl⟩
  unfold listEventsSetup
  simp [h1, h2]

/-- C9, witness at a concrete namespace filter. -/
theorem claim9_empty_resolver_short_circuit_witness :
    EventsFlags.optimizerId ⟨"", "payments", "", "", -1, false⟩ = "" ∧
    (EventsFlags.namespace_ ⟨"", "payments", "", "", -1, false⟩ ≠ "" ∨
      EventsFlags.workloadName ⟨"", "payments", "", "", -1, false⟩ ≠ "") ∧
    (listEventsSetup ⟨"", "payments", "", "", -1, false⟩ (Except.ok []) =
        ⟨SetupOutcome.statusNoEntities, true⟩ ∧
      SetupOutcome.mainQueryIssued SetupOutcome.statusNoEntities = false) :=
  ⟨rfl, by decide,
    claim9_empty_resolver_short_circuit ⟨"", "payments", "", "", -1, false⟩ rfl
      (by decide)⟩

/-- C6: whenever a result cap is specified (`count != -1`), and likewise on
the initial fetch in follow mode, pagination is skipped entirely: the result
is exactly the first page's extraction and zero continuation requests are
issued, for every page environment - even one whose first page carries a
`"next"` link. -/
theorem claim6_cap_skips_pagination (flags : EventsFlags) (followApplies : Bool)
    (ds : DataSet) (pages : List PollResponse) :
    (flags.count ≠ -1 →
      collectEventRows flags followApplies ds pages = (extractEventsData (some ds), 0)) ∧
    (flags.follow = true →
      collectEventRows flags true ds pages = (extractEventsData (some ds), 0)) := by
  constructor
  · intro h
    unfold collectEventRows
    cases hx : extractEventsData (some ds) <;> simp [h]
  · intro h
    unfold collectEventRows
    cases hx : extractEventsData (some ds) <;> by_cases hc : flags.count ≠ -1 <;>
      simp [h, hc]

/-- C6, witness: a cap of 5 on a first page that does carry a `"next"` link
and a non-empty continuation environment still yields the first page only
and zero continuation calls. -/
theorem claim6_cap_skips_pagination_witness :
    EventsFlags.count ⟨"", "", "", "o", 5, false⟩ ≠ -1 ∧
    collectEventRows ⟨"", "", "", "o", 5, false⟩ false ⟨"d", [], ["next"]⟩
        [PollResponse.resp ⟨false, none⟩] =
      (extractEventsData (some ⟨"d", [], ["next"]⟩), 0) :=
  ⟨by decide,
    (claim6_cap_skips_pagination ⟨"", "", "", "o", 5, false⟩ false
      ⟨"d", [], ["next"]⟩ [PollResponse.resp ⟨false, none⟩]).1 (by decide)⟩

/-- C5, counterexample: a follow poll whose response has a nil main dataset
is NOT fatal - `followDatasetAndPrint` returns the previous cursor with no
error, and the loop goes on to dispatch another poll instead of terminating
with an error. -/
theorem claim5_counterexample :
    followDatasetAndPrint ⟨"d", [], []⟩ (PollResponse.resp ⟨false, none⟩) =
      GoResult.ok ⟨some ⟨"d", [], []⟩, none, false, []⟩ ∧
    followLoop [LoopEvent.result ⟨some ⟨"d", [], []⟩, none, false, []⟩] = (none, 1) := by
  exact ⟨rfl, rfl⟩

/-- C5, amended: a follow poll violating the row shape (a main dataset with
no rows, a first row with no columns, or a first cell that is not a nested
dataset) is fatal - the loop surfaces the error to the caller and dispatches
no further poll; but a poll whose response has a nil/absent main dataset is
NOT fatal: it is only logged, and the loop keeps polling with the previous
cursor. -/
theorem claim5_follow_fatal_amended (ds : DataSet) (hasErrs : Bool) (name : String)
    (links : List String) (s : String) (cells : List Value)
    (moreRows : List (List Value)) (rest : List LoopEvent) :
    (followDatasetAndPrint ds (PollResponse.resp ⟨hasErrs, none⟩) =
        GoResult.ok ⟨some ds, none, false, []⟩ ∧
      followLoop (LoopEvent.result ⟨some ds, none, false, []⟩ :: rest) =
        ((followLoop rest).1, (followLoop rest).2 + 1)) ∧
    (∃ e, followDatasetAndPrint ds (PollResponse.resp ⟨hasErrs, some ⟨name, [], links⟩⟩) =
        GoResult.ok ⟨none, some e, false, []⟩ ∧
      followLoop (LoopEvent.result ⟨none, some e, false, []⟩ :: rest) = (some (some e), 0)) ∧
    (∃ e, followDatasetAndPrint ds
          (PollResponse.resp ⟨hasErrs, some ⟨name, [] :: moreRows, links⟩⟩) =
        GoResult.ok ⟨none, some e, false, []⟩ ∧
      followLoop (LoopEvent.result ⟨none, some e, false, []⟩ :: rest) = (some (some e), 0)) ∧
    (∃ e, followDatasetAndPrint ds
          (PollResponse.resp ⟨hasErrs, some ⟨name, (Value.vstr s :: cells) :: moreRows, links⟩⟩) =
        GoResult.ok ⟨none, some e, false, []⟩ ∧
      followLoop (LoopEvent.result ⟨none, some e, false, []⟩ :: rest) = (some (some e), 0)) := by
  refine ⟨⟨rfl, ?_⟩, ⟨_, rfl, rfl⟩, ⟨_, rfl, rfl⟩, ⟨_, rfl, rfl⟩⟩
  simp [followLoop, followLoopStep]

/-- C7: after a follow poll that successfully returns a row batch, the next
poll is dispatched sleeping first exactly when the batch was empty: a
non-empty batch is printed and re-polled with no intervening delay, an empty
batch (cursor exhausted) waits one follow interval first. -/
theorem claim7_eager_drain (ds : DataSet) (hasErrs : Bool) (name1 name2 : String)
    (links1 links2 : List String)
    (rowsSpec : List (List (String × Value) × Nat)) :
    followDatasetAndPrint ds (PollResponse.resp ⟨hasErrs, some ⟨name2,
        [[DataSet.toValue ⟨name1, mkWellRows rowsSpec, links1⟩]], links2⟩⟩) =
      GoResult.ok ⟨some ⟨name1, mkWellRows rowsSpec, links1⟩, none,
        (mkEvents rowsSpec).isEmpty, mkEvents rowsSpec⟩ ∧
    followLoopStep (LoopEvent.result ⟨some ⟨name1, mkWellRows rowsSpec, links1⟩, none,
        (mkEvents rowsSpec).isEmpty, mkEvents rowsSpec⟩) =
      LoopStep.dispatch (mkEvents rowsSpec).isEmpty
        (some ⟨name1, mkWellRows rowsSpec, links1⟩) := by
  constructor
  · simp only [followDatasetAndPrint, DataSet.toValue, Value.asDataSet,
      extractEventsData, extractRows_mkWellRows]
    cases rowsSpec with
    | nil => rfl
    | cons p rest => simp [mkEvents]
  · rfl

/-- C8: an interrupt signal observed by the follow loop's select terminates
the loop immediately, returning success (nil) and dispatching no further
poll, whatever events would have followed. -/
theorem claim8_interrupt_terminates (rest : List LoopEvent) :
    followLoop (LoopEvent.interrupt :: rest) = (some none, 0) := by
  rfl

end FsocOptimize
